import Mathlib

/-!
Verification of the HackSky repository's specified core logic.

The repository's only repeatable algorithmic logic is the anomaly-flagging
rule over a power-reading time series (spec §4.1, "Anomaly Flagger").  The
inspected source contains no implementation of it (only prose, UI mock data
and thin REST glue), so the Flagger is modelled here from the spec's words.
The UI / API fragments that do exist in the source (PowerMonitorChart's mock
data generator, apiFetch, AnomalyAlerts.dismissAlert) are embedded from the
source directly.

Floating-point `float64` values are modelled by rationals together with
explicit NaN / infinite markers; the square root needed for the standard
deviation is taken in `ℝ` as a derived observation of the computable
squared score.
-/

namespace HackSky

/-- Modelled from the spec: a `float64` power value, which may be NaN or
infinite (spec §4.1 input validation).  Finite values are rationals. -/
inductive PowerValue where
  | finite (q : ℚ)
  | nan
  | infty
  deriving DecidableEq, Repr

/-- A power value is valid when it is finite (neither NaN nor infinite). -/
def PowerValue.isValid : PowerValue → Bool
  | .finite _ => true
  | .nan => false
  | .infty => false

/-- The rational magnitude of a finite power value (0 for NaN/infinite,
which are rejected before this is ever used). -/
def PowerValue.val : PowerValue → ℚ
  | .finite q => q
  | .nan => 0
  | .infty => 0

/-- Modelled from the spec: `Reading = (device_id, timestamp, power,
voltage?, current?)` (spec §3, Data Model). -/
structure Reading where
  device_id : String
  timestamp : ℕ
  power : PowerValue
  voltage : Option ℚ := none
  current : Option ℚ := none
  deriving DecidableEq, Repr

/-- Modelled from the spec: construction-time configuration
`{window_capacity, min_samples, sigma_threshold}` with defaults 200, 10
and 2.0 (spec §4.1). -/
structure FlaggerConfig where
  window_capacity : ℕ := 200
  min_samples : ℕ := 10
  sigma_threshold : ℚ := 2
  deriving DecidableEq, Repr

/-- Modelled from the spec: `InvalidInputError` — malformed reading
(NaN/Infinite power, empty device identifier) (spec §7). -/
inductive InvalidInputError where
  | nanPower
  | infinitePower
  | emptyDeviceId
  deriving DecidableEq, Repr

/-- Modelled from the spec: a reading is a valid input when its power is
finite and its device identifier is nonempty (spec §4.1 input clause). -/
def Reading.isValidInput (r : Reading) : Bool :=
  r.power.isValid && !r.device_id.isEmpty

/-- The error reported for an invalid reading, matching the spec's listed
causes in order (NaN power, infinite power, empty device id). -/
def Reading.inputError (r : Reading) : InvalidInputError :=
  match r.power with
  | .nan => .nanPower
  | .infty => .infinitePower
  | .finite _ => .emptyDeviceId

/-- Modelled from the spec: the mean of the window contents (spec §3,
Baseline).  Division by zero (empty window) yields 0 in `ℚ`. -/
def windowMean (w : List ℚ) : ℚ :=
  w.sum / w.length

/-- Modelled from the spec: the variance of the window contents.  The
spec's worked example (`[100,102,98,101,99]` having `stddev ≈ 1.58`)
fixes the sample (`n-1`) normalisation. -/
def windowVariance (w : List ℚ) : ℚ :=
  (w.map (fun x => (x - windowMean w) ^ 2)).sum / (w.length - 1 : ℕ)

/-- The standard deviation of the window: the real square root of the
sample variance (spec §3, Baseline `stddev`). -/
noncomputable def windowStddev (w : List ℚ) : ℝ :=
  Real.sqrt (windowVariance w)

/-- Modelled from the spec: the squared Z-score of a power value against
the window, with the degenerate zero-variance window mapped to 0
(spec §4.1 step 3: if `stddev == 0`, define `score = 0`). -/
def scoreSq (w : List ℚ) (p : ℚ) : ℚ :=
  if windowVariance w = 0 then 0
  else (p - windowMean w) ^ 2 / windowVariance w

/-- Modelled from the spec: `is_anomaly = score > threshold` (spec §4.1
step 4), decided computably on the squared score: since `score ≥ 0`, the
comparison holds exactly when the threshold is negative or its square is
below the squared score. -/
def anomalyFlag (threshold : ℚ) (s2 : ℚ) : Bool :=
  decide (threshold < 0) || decide (threshold ^ 2 < s2)

/-- Modelled from the spec: `AnomalyVerdict = (reading, is_anomaly,
score)` (spec §3); the score is carried squared to stay rational, with
the real score derived below. -/
structure AnomalyVerdict where
  reading : Reading
  is_anomaly : Bool
  score_sq : ℚ
  deriving DecidableEq, Repr

/-- The verdict's real absolute Z-score (spec §3: score is the absolute
Z-score of `reading.power` against the Baseline at evaluation time). -/
noncomputable def AnomalyVerdict.score (v : AnomalyVerdict) : ℝ :=
  Real.sqrt v.score_sq

/-- Modelled from the spec: the per-device Baseline registry.  Baselines
are created lazily (spec §4.1 step 1): an unknown device maps to the
empty window. -/
def FlaggerState : Type := String → List ℚ

/-- The initial registry: every device has an empty window. -/
def initState : FlaggerState := fun _ => []

/-- Modelled from the spec: append the power to the window and, if the
capacity is exceeded, evict the oldest entry (FIFO) (spec §4.1 step 5).
Windows are kept oldest-first. -/
def pushWindow (cap : ℕ) (w : List ℚ) (p : ℚ) : List ℚ :=
  let w' := w ++ [p]
  if cap < w'.length then w'.tail else w'

/-- The verdict of an evaluation, computed from the Baseline window as it
stood before the reading is appended (spec §4.1 steps 2–4). -/
def pureVerdict (cfg : FlaggerConfig) (w : List ℚ) (r : Reading) :
    Except InvalidInputError AnomalyVerdict :=
  if r.isValidInput then
    if w.length < cfg.min_samples then
      .ok ⟨r, false, 0⟩
    else
      .ok ⟨r, anomalyFlag cfg.sigma_threshold (scoreSq w r.power.val),
           scoreSq w r.power.val⟩
  else
    .error r.inputError

/-- Modelled from the spec: `evaluate(reading) -> AnomalyVerdict`
(spec §4.1).  Invalid readings fail with `InvalidInputError` and leave
every Baseline untouched; valid readings are judged against the
pre-update window and then recorded in the device's window. -/
def evaluate (cfg : FlaggerConfig) (st : FlaggerState) (r : Reading) :
    Except InvalidInputError AnomalyVerdict × FlaggerState :=
  if r.isValidInput then
    (pureVerdict cfg (st r.device_id) r,
     fun d => if d = r.device_id
              then pushWindow cfg.window_capacity (st r.device_id) r.power.val
              else st d)
  else
    (.error r.inputError, st)

/-- Evaluate a list of readings in arrival order, collecting the verdicts
and threading the Baseline registry. -/
def runReadings (cfg : FlaggerConfig) (st : FlaggerState) :
    List Reading → List (Except InvalidInputError AnomalyVerdict) × FlaggerState
  | [] => ([], st)
  | r :: rs =>
      let step := evaluate cfg st r
      let rest := runReadings cfg step.2 rs
      (step.1 :: rest.1, rest.2)

/-- A reading for one device carrying a finite power value (used to state
the single-device window-bound property). -/
def mkReading (d : String) (p : ℚ) : Reading :=
  { device_id := d, timestamp := 0, power := .finite p }

/-- The subsequence of verdicts belonging to device `d` in a full
multi-device run: the verdicts at exactly the positions whose reading
carries `d` as its device id. -/
def verdictsFor (cfg : FlaggerConfig) (st : FlaggerState) (d : String)
    (rs : List Reading) : List (Except InvalidInputError AnomalyVerdict) :=
  ((rs.zip (runReadings cfg st rs).1).filter
      (fun pr => pr.1.device_id == d)).map Prod.snd

/-! ### Embedding of `PowerMonitorChart` (mock variant, src/unnamed/part_001)

The second `PowerMonitorChart` component in `src/unnamed/part_001` keeps a
hard-coded array of `{ time, power, normal, anomaly }` points and, every
interval tick, appends a generated point and drops the oldest.  The
generated float `newPower` is modelled as a rational. -/

/-- A chart data point, as in the mock component's state array. -/
structure DataPoint where
  time : String
  power : ℤ
  normal : ℤ
  anomaly : Option ℤ
  deriving DecidableEq, Repr

/-- The new data point built on each tick of the mock component
(`src/unnamed/part_001` lines 378–390): `power` is `Math.round(newPower)`,
`normal` is the constant 880, and `anomaly` is the rounded power when
`newPower > 920` and `null` otherwise.  JavaScript's `Math.round` is
`⌊x + 1/2⌋`, which is Mathlib's `round`. -/
def mkDataPoint (timeString : String) (newPower : ℚ) : DataPoint :=
  { time := timeString
    power := round newPower
    normal := 880
    anomaly := if 920 < newPower then some (round newPower) else none }

/-- The mock component's state update: drop the oldest point
(`prevData.slice(1)`) and append the new one. -/
def updateData (prevData : List DataPoint) (timeString : String)
    (newPower : ℚ) : List DataPoint :=
  prevData.drop 1 ++ [mkDataPoint timeString newPower]

/-! ### Embedding of `api.ts` -/

/-- A parsed JSON value (the result of `response.json()`). -/
inductive Json where
  | null
  | bool (b : Bool)
  | num (q : ℚ)
  | str (s : String)
  | arr (xs : List Json)
  | obj (fields : List (String × Json))

/-- The observable parts of a `fetch` response used by `apiFetch`:
the `ok` flag, HTTP status and status text, the body as text (read on the
error path) and the body parsed as JSON (returned on the success path). -/
structure FetchResponse where
  ok : Bool
  status : ℕ
  statusText : String
  bodyText : String
  jsonBody : Json

/-- `src/src/api.ts`: the base URL prepended to every endpoint. -/
def API_BASE_URL : String := "/api"

/-- `src/src/api.ts` lines 11–18: `apiFetch` throws an
`API Error: <status> <statusText> on <endpoint> - <body>` error when the
response is not ok, and otherwise returns the parsed JSON body.  The
network side of `fetch` is modelled by passing the response explicitly. -/
def apiFetch (endpoint : String) (response : FetchResponse) :
    Except String Json :=
  if !response.ok then
    .error ("API Error: " ++ toString response.status ++ " "
      ++ response.statusText ++ " on " ++ endpoint ++ " - "
      ++ response.bodyText)
  else
    .ok response.jsonBody

/-- `src/src/api.ts` line 22. -/
def fetchAlerts : FetchResponse → Except String Json := apiFetch "/alerts"

/-- `src/src/api.ts` line 24. -/
def fetchSystemStatus : FetchResponse → Except String Json :=
  apiFetch "/system-status"

/-- `src/src/api.ts` line 26. -/
def fetchPowerData : FetchResponse → Except String Json :=
  apiFetch "/power-data"

/-- `src/src/api.ts` line 28. -/
def fetchAttackAnalysis : FetchResponse → Except String Json :=
  apiFetch "/attack-analysis"

/-- `src/src/api.ts` line 30. -/
def fetchStatistics : FetchResponse → Except String Json :=
  apiFetch "/statistics"

/-- `src/src/api.ts` line 32. -/
def fetchHealth : FetchResponse → Except String Json := apiFetch "/health"

/-! ### Embedding of `AnomalyAlerts.tsx` -/

/-- The alert severity union type `'critical' | 'warning' | 'info'`. -/
inductive AlertType where
  | critical
  | warning
  | info
  deriving DecidableEq, Repr

/-- The `Alert` interface of `src/src/components/AnomalyAlerts.tsx`
(timestamps as naturals; ids are JavaScript numbers, compared only for
equality, modelled as integers). -/
structure Alert where
  id : ℤ
  type : AlertType
  message : String
  timestamp : ℕ
  system : String
  deriving DecidableEq, Repr

/-- `src/src/components/AnomalyAlerts.tsx` lines 44–46:
`setAlerts(prev => prev.filter(alert => alert.id !== alertId))`. -/
def dismissAlert (alertId : ℤ) (alerts : List Alert) : List Alert :=
  alerts.filter (fun a => a.id != alertId)

/-! ### Concrete fixtures used by the witnesses -/

/-- Configuration of the spec's worked example: `min_samples = 5`,
default capacity and threshold. -/
def cfgEx : FlaggerConfig := ⟨200, 5, 2⟩

/-- The Baseline registry after evaluating the first five readings
`[100,102,98,101,99]` of the spec's worked example on device `dev`. -/
def stEx : FlaggerState :=
  (runReadings cfgEx initState ([100, 102, 98, 101, 99].map (mkReading "dev"))).2

/-- The sixth reading of the spec's worked example. -/
def rEx : Reading := mkReading "dev" 150

/-- Configuration for the degenerate zero-variance example
(`min_samples = 3`). -/
def cfgZv : FlaggerConfig := ⟨200, 3, 2⟩

/-- The registry after evaluating `[10,10,10]` on device `dev`:
three entries, zero variance. -/
def stZv : FlaggerState :=
  (runReadings cfgZv initState ([10, 10, 10].map (mkReading "dev"))).2

/-- A reading with NaN power (invalid input). -/
def rNan : Reading := { device_id := "dev", timestamp := 0, power := .nan }

/-- Capacity-3 configuration for the window-bound witness. -/
def cfgCap3 : FlaggerConfig := ⟨3, 1, 2⟩

/-- A failing (`404`) response fixture. -/
def resp404 : FetchResponse :=
  ⟨false, 404, "Not Found", "missing", .null⟩

/-- A successful response fixture carrying a `null` JSON body. -/
def respOk : FetchResponse := ⟨true, 200, "OK", "", .null⟩

/-- Alert fixtures for the dismissal witness. -/
def alertA : Alert := ⟨1, .critical, "Unusual power spike detected", 0, "A"⟩

def alertB : Alert := ⟨2, .warning, "Voltage fluctuation", 1, "B"⟩

/-! ### Basic lemmas about the Flagger model -/

lemma windowVariance_nonneg (w : List ℚ) : 0 ≤ windowVariance w := by
  unfold windowVariance
  apply div_nonneg
  · apply List.sum_nonneg
    intro x hx
    simp only [List.mem_map] at hx
    obtain ⟨y, -, rfl⟩ := hx
    positivity
  · exact_mod_cast Nat.zero_le _

lemma scoreSq_nonneg (w : List ℚ) (p : ℚ) : 0 ≤ scoreSq w p := by
  unfold scoreSq
  split
  · exact le_refl 0
  · exact div_nonneg (by positivity) (windowVariance_nonneg w)

lemma anomalyFlag_iff_score {θ s2 : ℚ} :
    anomalyFlag θ s2 = true ↔ (θ : ℝ) < Real.sqrt (s2 : ℚ) := by
  unfold anomalyFlag
  simp only [Bool.or_eq_true, decide_eq_true_eq]
  constructor
  · rintro (h | h)
    · exact lt_of_lt_of_le (by exact_mod_cast h) (Real.sqrt_nonneg _)
    · exact Real.lt_sqrt_of_sq_lt (by exact_mod_cast h)
  · intro h
    rcases lt_or_le θ 0 with hθ | hθ
    · exact Or.inl hθ
    · right
      have h2 : ((θ : ℝ)) ^ 2 < ((s2 : ℚ) : ℝ) :=
        (Real.lt_sqrt (by exact_mod_cast hθ)).mp h
      exact_mod_cast h2

lemma mkReading_device_id (d : String) (p : ℚ) :
    (mkReading d p).device_id = d := rfl

lemma mkReading_power_val (d : String) (p : ℚ) :
    (mkReading d p).power.val = p := rfl

lemma mkReading_validInput {d : String} (hd : d ≠ "") (p : ℚ) :
    (mkReading d p).isValidInput = true := by
  have hne : d.isEmpty = false := by
    rw [Bool.eq_false_iff]
    intro h
    exact hd ((String.isEmpty_iff d).mp h)
  simp [mkReading, Reading.isValidInput, PowerValue.isValid, hne]

/-- Claim C2: while a device's window holds fewer than `min_samples`
entries, `evaluate` records the reading and returns a verdict with
`is_anomaly = false` and score 0. -/
theorem evaluate_insufficient_history (cfg : FlaggerConfig) (st : FlaggerState)
    (r : Reading) (hv : r.isValidInput = true)
    (hlen : (st r.device_id).length < cfg.min_samples) :
    ∃ v st', evaluate cfg st r = (.ok v, st') ∧
      v.is_anomaly = false ∧ v.score_sq = 0 ∧ v.score = 0 ∧
      st' r.device_id
        = pushWindow cfg.window_capacity (st r.device_id) r.power.val ∧
      (cfg.min_samples ≤ cfg.window_capacity →
        st' r.device_id = st r.device_id ++ [r.power.val]) := by
  have hpair : evaluate cfg st r =
      (.ok ⟨r, false, 0⟩,
       fun d => if d = r.device_id
                then pushWindow cfg.window_capacity (st r.device_id) r.power.val
                else st d) := by
    simp [evaluate, pureVerdict, hv, hlen]
  refine ⟨⟨r, false, 0⟩, _, hpair, rfl, rfl, ?_, ?_, ?_⟩
  · simp [AnomalyVerdict.score, Real.sqrt_zero]
  · exact if_pos rfl
  · intro hcap
    show (if r.device_id = r.device_id
          then pushWindow cfg.window_capacity (st r.device_id) r.power.val
          else st r.device_id) = st r.device_id ++ [r.power.val]
    rw [if_pos rfl]
    unfold pushWindow
    rw [if_neg]
    simp only [List.length_append, List.length_cons, List.length_nil,
      Nat.not_lt]
    omega

/-- Claim C3: with at least `min_samples` entries and a zero-variance
window, `evaluate` defines the score as 0 (the division is guarded) and
returns `is_anomaly = false` regardless of the reading's power value. -/
theorem evaluate_zero_variance (cfg : FlaggerConfig) (st : FlaggerState)
    (r : Reading) (hv : r.isValidInput = true)
    (hlen : cfg.min_samples ≤ (st r.device_id).length)
    (hvar : windowVariance (st r.device_id) = 0)
    (hθ : 0 ≤ cfg.sigma_threshold) :
    ∃ v st', evaluate cfg st r = (.ok v, st') ∧
      v.is_anomaly = false ∧ v.score_sq = 0 ∧ v.score = 0 := by
  have hs2 : scoreSq (st r.device_id) r.power.val = 0 := by
    simp [scoreSq, hvar]
  have hflag : anomalyFlag cfg.sigma_threshold
      (scoreSq (st r.device_id) r.power.val) = false := by
    rw [hs2]
    unfold anomalyFlag
    simp only [Bool.or_eq_false_iff, decide_eq_false_iff_not, not_lt]
    exact ⟨hθ, by positivity⟩
  have hpair : evaluate cfg st r =
      (.ok ⟨r, anomalyFlag cfg.sigma_threshold
          (scoreSq (st r.device_id) r.power.val),
          scoreSq (st r.device_id) r.power.val⟩,
       fun d => if d = r.device_id
                then pushWindow cfg.window_capacity (st r.device_id) r.power.val
                else st d) := by
    simp [evaluate, pureVerdict, hv, Nat.not_lt.mpr hlen]
  refine ⟨_, _, hpair, hflag, hs2, ?_⟩
  simp [AnomalyVerdict.score, hs2, Real.sqrt_zero]

/-- Claim C5: `evaluate` fails with an `InvalidInputError` exactly when
the power is NaN or infinite or the device id is empty; on failure no
Baseline is modified, and valid readings (anomalous or not) never

produce an error. -/
theorem evaluate_invalid_input (cfg : FlaggerConfig) (st : FlaggerState)
    (r : Reading) :
    ((∃ e, (evaluate cfg st r).1 = .error e) ↔
        (r.power = .nan ∨ r.power = .infty ∨ r.device_id = "")) ∧
    ((∃ e, (evaluate cfg st r).1 = .error e) → (evaluate cfg st r).2 = st) ∧
    (r.isValidInput = true → ∃ v, (evaluate cfg st r).1 = .ok v) := by
  have hval : r.isValidInput = true ↔
      ¬(r.power = .nan ∨ r.power = .infty ∨ r.device_id = "") := by
    unfold Reading.isValidInput
    rcases hp : r.power with q | - | - <;>
      simp [PowerValue.isValid, Bool.not_eq_true', String.isEmpty_iff] <;>
      simp [← String.isEmpty_iff, Bool.not_eq_true]
  by_cases hv : r.isValidInput = true
  · refine ⟨?_, ?_, ?_⟩
    · constructor
      · rintro ⟨e, he⟩
        exfalso
        unfold evaluate pureVerdict at he
        rw [hv] at he
        simp only [if_true] at he
        split at he <;> simp at he
      · intro hcond
        exact absurd hcond (hval.mp hv)
    · rintro ⟨e, he⟩
      exfalso
      unfold evaluate pureVerdict at he
      rw [hv] at he
      simp only [if_true] at he
      split at he <;> simp at he
    · intro _
      unfold evaluate pureVerdict
      rw [hv]
      simp only [if_true]
      split
      · exact ⟨_, rfl⟩
      · exact ⟨_, rfl⟩
  · have hv' : r.isValidInput = false := Bool.not_eq_true _ ▸ by
      simpa using hv
    refine ⟨?_, ?_, ?_⟩
    · constructor
      · intro _
        by_contra hcond
        exact hv (hval.mpr hcond)
      · intro _
        exact ⟨r.inputError, by simp [evaluate, hv']⟩
    · intro _
      simp [evaluate, hv']
    · intro h
      exact absurd h hv

/-- Claim C1: with at least `min_samples` window entries and a nonzero
standard deviation, `evaluate` returns the absolute Z-score of the
reading against the window, and flags an anomaly exactly when that score
exceeds `sigma_threshold`. -/
theorem evaluate_zscore (cfg : FlaggerConfig) (st : FlaggerState)
    (r : Reading) (hv : r.isValidInput = true)
    (hlen : cfg.min_samples ≤ (st r.device_id).length)
    (hvar : windowVariance (st r.device_id) ≠ 0) :
    ∃ v st', evaluate cfg st r = (.ok v, st') ∧
      v.score = |(r.power.val : ℝ) - (windowMean (st r.device_id) : ℝ)|
                  / windowStddev (st r.device_id) ∧
      (v.is_anomaly = true ↔ (cfg.sigma_threshold : ℝ) < v.score) := by
  have hpair : evaluate cfg st r =
      (.ok ⟨r, anomalyFlag cfg.sigma_threshold
          (scoreSq (st r.device_id) r.power.val),
          scoreSq (st r.device_id) r.power.val⟩,
       fun d => if d = r.device_id
                then pushWindow cfg.window_capacity (st r.device_id) r.power.val
                else st d) := by
    simp [evaluate, pureVerdict, hv, Nat.not_lt.mpr hlen]
  refine ⟨_, _, hpair, ?_, ?_⟩
  · show Real.sqrt ((scoreSq (st r.device_id) r.power.val : ℚ) : ℝ) = _
    unfold scoreSq
    rw [if_neg hvar]
    unfold windowStddev
    push_cast
    rw [Real.sqrt_div (by positivity), Real.sqrt_sq_eq_abs]
  · exact anomalyFlag_iff_score

/-! ### The window-bound invariant (Claim C4) -/

lemma pushWindow_drop (cap : ℕ) (ps : List ℚ) (p : ℚ) :
    pushWindow cap (ps.drop (ps.length - cap)) p
      = (ps ++ [p]).drop (ps.length + 1 - cap) := by
  unfold pushWindow
  by_cases hc : ps.length < cap
  · rw [Nat.sub_eq_zero_of_le (le_of_lt hc), List.drop_zero,
      Nat.sub_eq_zero_of_le hc, List.drop_zero, if_neg]
    simp only [List.length_append, List.length_cons, List.length_nil,
      Nat.not_lt]
    omega
  · push_neg at hc
    have hlen : (ps.drop (ps.length - cap)).length = cap := by
      rw [List.length_drop]
      omega
    rw [if_pos]
    swap
    · simp only [List.length_append, List.length_cons, List.length_nil, hlen]
      omega
    rcases Nat.eq_zero_or_pos cap with hcap | hcap
    · subst hcap
      rw [Nat.sub_zero, List.drop_length]
      have : ps.length + 1 - 0 = (ps ++ [p]).length := by
        simp
      rw [this, List.drop_length]
      rfl
    · obtain ⟨q, w, hw⟩ : ∃ q w, ps.drop (ps.length - cap) = q :: w := by
        rcases h : ps.drop (ps.length - cap) with - | ⟨q, w⟩
        · rw [h] at hlen
          simp at hlen
          omega
        · exact ⟨q, w, rfl⟩
      rw [hw]
      have htail : (q :: w ++ [p]).tail = w ++ [p] := rfl
      rw [htail]
      have hwdrop : w = ps.drop (ps.length - cap + 1) := by
        have := List.tail_drop ps (ps.length - cap)
        rw [hw] at this
        simpa using this
      rw [hwdrop, List.drop_append_of_le_length (by omega)]
      congr 2
      omega

lemma foldl_pushWindow_drop (cap : ℕ) (ps : List ℚ) :
    List.foldl (pushWindow cap) [] ps = ps.drop (ps.length - cap) := by
  induction ps using List.reverseRecOn with
  | nil => simp
  | append_singleton ps p ih =>
      rw [List.foldl_append, List.foldl_cons, List.foldl_nil, ih,
        pushWindow_drop]
      simp

lemma runReadings_map_window (cfg : FlaggerConfig) {d : String} (hd : d ≠ "")
    (ps : List ℚ) (st : FlaggerState) :
    (runReadings cfg st (ps.map (mkReading d))).2 d
      = List.foldl (pushWindow cfg.window_capacity) (st d) ps := by
  induction ps generalizing st with
  | nil => rfl
  | cons p ps ih =>
      simp only [List.map_cons, runReadings]
      rw [ih, List.foldl_cons]
      congr 1
      simp [evaluate, mkReading_validInput hd, mkReading_device_id,
        mkReading_power_val]

/-- Claim C4: for a single device the window never exceeds the configured
capacity, eviction is FIFO, and after `capacity + k` evaluations the
window holds exactly the `capacity` most recent power values in arrival
order. -/
theorem window_bound (cfg : FlaggerConfig) (d : String) (hd : d ≠ "")
    (ps : List ℚ) :
    (runReadings cfg initState (ps.map (mkReading d))).2 d
        = ps.drop (ps.length - cfg.window_capacity) ∧
    ((runReadings cfg initState (ps.map (mkReading d))).2 d).length
        = min ps.length cfg.window_capacity ∧
    (∀ k, ps.length = cfg.window_capacity + k →
      (runReadings cfg initState (ps.map (mkReading d))).2 d = ps.drop k) := by
  have h1 : (runReadings cfg initState (ps.map (mkReading d))).2 d
      = ps.drop (ps.length - cfg.window_capacity) := by
    rw [runReadings_map_window cfg hd ps initState]
    exact foldl_pushWindow_drop _ _
  refine ⟨h1, ?_, ?_⟩
  · rw [h1, List.length_drop]
    omega
  · intro k hk
    rw [h1]
    congr 1
    omega

/-! ### Verdicts are computed from the pre-update baseline (Claim C6) -/

lemma runReadings_cons (cfg : FlaggerConfig) (st : FlaggerState)
    (r : Reading) (rs : List Reading) :
    runReadings cfg st (r :: rs)
      = ((evaluate cfg st r).1
            :: (runReadings cfg (evaluate cfg st r).2 rs).1,
         (runReadings cfg (evaluate cfg st r).2 rs).2) := rfl

/-- Claim C6: the verdict of an evaluation is a function of the Baseline
as it stood before the reading is appended (`pureVerdict` of the
pre-state window), and consequently evaluating further readings never
changes the verdicts already returned for a prefix of the sequence. -/
theorem verdicts_from_preupdate_baseline :
    (∀ (cfg : FlaggerConfig) (st : FlaggerState) (r : Reading),
        (evaluate cfg st r).1 = pureVerdict cfg (st r.device_id) r) ∧
    (∀ (cfg : FlaggerConfig) (st : FlaggerState) (rs rs' : List Reading),
        ((runReadings cfg st (rs ++ rs')).1).take rs.length
          = (runReadings cfg st rs).1) := by
  constructor
  · intro cfg st r
    by_cases hv : r.isValidInput = true
    · simp [evaluate, hv]
    · have hv' : r.isValidInput = false := by simpa using hv
      simp [evaluate, pureVerdict, hv']
  · intro cfg st rs rs'
    induction rs generalizing st with
    | nil => rfl
    | cons r rs ih =>
        rw [List.cons_append, runReadings_cons, runReadings_cons]
        simp only [List.length_cons, List.take_succ_cons]
        rw [ih]

/-! ### Cross-device independence (Claim C7) -/

lemma evaluate_frame (cfg : FlaggerConfig) (st : FlaggerState)
    (r : Reading) {d : String} (hd : d ≠ r.device_id) :
    (evaluate cfg st r).2 d = st d := by
  unfold evaluate
  split
  · exact if_neg hd
  · rfl

lemma evaluate_fst_congr (cfg : FlaggerConfig) {st₁ st₂ : FlaggerState}
    (r : Reading) (h : st₁ r.device_id = st₂ r.device_id) :
    (evaluate cfg st₁ r).1 = (evaluate cfg st₂ r).1 := by
  by_cases hv : r.isValidInput = true
  · simp [evaluate, hv, h]
  · have hv' : r.isValidInput = false := by simpa using hv
    simp [evaluate, hv']

lemma evaluate_snd_self_congr (cfg : FlaggerConfig) {st₁ st₂ : FlaggerState}
    (r : Reading) (h : st₁ r.device_id = st₂ r.device_id) :
    (evaluate cfg st₁ r).2 r.device_id = (evaluate cfg st₂ r).2 r.device_id := by
  by_cases hv : r.isValidInput = true
  · simp [evaluate, hv, h]
  · have hv' : r.isValidInput = false := by simpa using hv
    simp [evaluate, hv', h]

lemma verdictsFor_cons (cfg : FlaggerConfig) (st : FlaggerState)
    (d : String) (r : Reading) (rs : List Reading) :
    verdictsFor cfg st d (r :: rs)
      = (if r.device_id == d then [(evaluate cfg st r).1] else [])
        ++ verdictsFor cfg (evaluate cfg st r).2 d rs := by
  unfold verdictsFor
  rw [runReadings_cons]
  by_cases h : (r.device_id == d) = true
  · simp [List.zip_cons_cons, List.filter_cons, h]
  · have h' : (r.device_id == d) = false := by simpa using h
    simp [List.zip_cons_cons, List.filter_cons, h']

lemma verdictsFor_eq_filtered (cfg : FlaggerConfig) (d : String)
    (rs : List Reading) :
    ∀ st₁ st₂ : FlaggerState, st₁ d = st₂ d →
      verdictsFor cfg st₁ d rs
        = (runReadings cfg st₂ (rs.filter (fun r => r.device_id == d))).1 := by
  induction rs with
  | nil =>
      intro st₁ st₂ h
      rfl
  | cons r rs ih =>
      intro st₁ st₂ h
      rw [verdictsFor_cons]
      by_cases hd : (r.device_id == d) = true
      · have hdd : r.device_id = d := by simpa using hd
        subst hdd
        rw [List.filter_cons_of_pos (by simp), runReadings_cons]
        rw [hd]
        simp only [if_true, List.singleton_append]
        congr 1
        · exact evaluate_fst_congr cfg r h
        · exact ih _ _ (evaluate_snd_self_congr cfg r h)
      · have hdd : r.device_id ≠ d := by simpa using hd
        have hd' : (r.device_id == d) = false := by simpa using hd
        rw [List.filter_cons_of_neg (by simpa using hd)]
        rw [hd', if_neg (by simp), List.nil_append]
        exact ih _ _ (by rw [evaluate_frame cfg st₁ r (Ne.symm hdd), h])

/-- Claim C7: for any multi-device interleaving of readings and any
device `d`, the verdicts produced at the positions carrying `d` coincide
with the verdicts of running `d`'s subsequence alone in arrival order:
evaluations for different devices share no state. -/
theorem cross_device_independence (cfg : FlaggerConfig) (d : String)
    (rs : List Reading) :
    verdictsFor cfg initState d rs
      = (runReadings cfg initState (rs.filter (fun r => r.device_id == d))).1 :=
  verdictsFor_eq_filtered cfg d rs initState initState rfl

/-! ### Theorems about the embedded source fragments -/

/-- Claim C8: in the mock variant of `PowerMonitorChart`, a generated
data point is marked anomalous exactly when the generated power exceeds
the fixed constant 920: its `anomaly` field equals the rounded power
when `newPower > 920` and is `null` (`none`) otherwise — no rolling
mean, standard deviation or per-device baseline is involved
(`mkDataPoint` takes only the time string and the generated power). -/
theorem mock_chart_anomaly_threshold (t : String) (p : ℚ) :
    ((mkDataPoint t p).anomaly = some (mkDataPoint t p).power ↔ 920 < p) ∧
    ((mkDataPoint t p).anomaly = none ↔ ¬920 < p) ∧
    (mkDataPoint t p).power = round p := by
  unfold mkDataPoint
  by_cases h : (920 : ℚ) < p
  · simp [h]
  · simp [h]

/-- Claim C9: `apiFetch` — and therefore every exported `fetch*`
function, each of which is `apiFetch` at its fixed endpoint — fails
exactly when the response has `ok = false`, with an error message
containing the HTTP status, the status text and the endpoint; when the
response is ok it returns the body parsed as JSON. -/
theorem apiFetch_error_exactly_on_not_ok (endpoint : String)
    (response : FetchResponse) :
    ((∃ msg, apiFetch endpoint response = .error msg) ↔ response.ok = false) ∧
    (∀ msg, apiFetch endpoint response = .error msg →
        (∃ a b, msg = a ++ (toString response.status ++ b)) ∧
        (∃ a b, msg = a ++ (response.statusText ++ b)) ∧
        (∃ a b, msg = a ++ (endpoint ++ b))) ∧
    (response.ok = true → apiFetch endpoint response = .ok response.jsonBody) ∧
    fetchAlerts response = apiFetch "/alerts" response ∧
    fetchSystemStatus response = apiFetch "/system-status" response ∧
    fetchPowerData response = apiFetch "/power-data" response ∧
    fetchAttackAnalysis response = apiFetch "/attack-analysis" response ∧
    fetchStatistics response = apiFetch "/statistics" response ∧
    fetchHealth response = apiFetch "/health" response := by
  refine ⟨?_, ?_, ?_, rfl, rfl, rfl, rfl, rfl, rfl⟩
  · constructor
    · rintro ⟨msg, hmsg⟩
      unfold apiFetch at hmsg
      by_cases hok : response.ok = true
      · rw [hok] at hmsg
        simp at hmsg
      · simpa using hok
    · intro hok
      refine ⟨"API Error: " ++ toString response.status ++ " "
          ++ response.statusText ++ " on " ++ endpoint ++ " - "
          ++ response.bodyText, ?_⟩
      unfold apiFetch
      rw [hok]
      rfl
  · intro msg hmsg
    unfold apiFetch at hmsg
    by_cases hok : response.ok = true
    · rw [hok] at hmsg
      simp at hmsg
    · have hok' : response.ok = false := by simpa using hok
      rw [hok'] at hmsg
      simp only [Bool.not_false, if_true] at hmsg
      have hmsg' : msg = "API Error: " ++ toString response.status ++ " "
          ++ response.statusText ++ " on " ++ endpoint ++ " - "
          ++ response.bodyText := by
        cases hmsg
        rfl
      subst hmsg'
      refine ⟨⟨"API Error: ", " " ++ response.statusText ++ " on "
          ++ endpoint ++ " - " ++ response.bodyText, ?_⟩,
        ⟨"API Error: " ++ toString response.status ++ " ",
          " on " ++ endpoint ++ " - " ++ response.bodyText, ?_⟩,
        ⟨"API Error: " ++ toString response.status ++ " "
          ++ response.statusText ++ " on ",
          " - " ++ response.bodyText, ?_⟩⟩
      · simp only [String.append_assoc]
      · simp only [String.append_assoc]
      · simp only [String.append_assoc]
  · intro hok
    unfold apiFetch
    rw [hok]
    rfl

/-- Claim C10: `AnomalyAlerts.dismissAlert` removes from the list exactly
the alerts whose id equals the dismissed id: the result is a sublist of
the original (so every surviving alert is unchanged and in its original
relative order), no surviving alert carries the dismissed id, every
alert with a different id survives, and the multiplicity of every such
alert is preserved. -/
theorem dismissAlert_removes_exactly (alertId : ℤ) (alerts : List Alert) :
    (dismissAlert alertId alerts).Sublist alerts ∧
    (∀ a ∈ dismissAlert alertId alerts, a.id ≠ alertId) ∧
    (∀ a ∈ alerts, a.id ≠ alertId → a ∈ dismissAlert alertId alerts) ∧
    (∀ a : Alert, a.id ≠ alertId →
      (dismissAlert alertId alerts).count a = alerts.count a) := by
  refine ⟨List.filter_sublist _, ?_, ?_, ?_⟩
  · intro a ha
    unfold dismissAlert at ha
    rw [List.mem_filter] at ha
    simpa using ha.2
  · intro a ha hne
    unfold dismissAlert
    rw [List.mem_filter]
    exact ⟨ha, by simpa using hne⟩
  · intro a hne
    unfold dismissAlert
    exact List.count_filter (by simpa using hne)

/-! ### Concrete witnesses -/

/-- Witness for the Z-score theorem at the spec's worked example: after
`[100,102,98,101,99]` on one device with `min_samples = 5`, the sixth
reading 150 is scored (squared score 1000, i.e. `score ≈ 31.6`) and
flagged anomalous. -/
theorem evaluate_zscore_witness :
    (∃ v st', evaluate cfgEx stEx rEx = (.ok v, st') ∧
      v.score = |(rEx.power.val : ℝ) - (windowMean (stEx rEx.device_id) : ℝ)|
                  / windowStddev (stEx rEx.device_id) ∧
      (v.is_anomaly = true ↔ (cfgEx.sigma_threshold : ℝ) < v.score)) ∧
    (∃ v st', evaluate cfgEx stEx rEx = (.ok v, st') ∧
      v.is_anomaly = true) := by
  have hwin : stEx rEx.device_id = [100, 102, 98, 101, 99] := rfl
  have hvv : windowVariance (stEx rEx.device_id) = 5 / 2 := by
    rw [hwin]
    norm_num [windowVariance, windowMean]
  have hvar : windowVariance (stEx rEx.device_id) ≠ 0 := by
    rw [hvv]
    norm_num
  have hmain := evaluate_zscore cfgEx stEx rEx (by decide) (by decide) hvar
  refine ⟨hmain, ?_⟩
  obtain ⟨v, st', heq, hscore, hiff⟩ := hmain
  refine ⟨v, st', heq, hiff.mpr ?_⟩
  rw [hscore]
  have hmm : windowMean (stEx rEx.device_id) = 100 := by
    rw [hwin]
    norm_num [windowMean]
  have habs : |(rEx.power.val : ℝ) - (windowMean (stEx rEx.device_id) : ℝ)|
      = 50 := by
    rw [hmm]
    show |((150 : ℚ) : ℝ) - ((100 : ℚ) : ℝ)| = 50
    push_cast
    norm_num
  have hstdpos : 0 < windowStddev (stEx rEx.device_id) := by
    unfold windowStddev
    apply Real.sqrt_pos.mpr
    rw [hvv]
    norm_num
  have hstdle : windowStddev (stEx rEx.device_id) ≤ 2 := by
    unfold windowStddev
    rw [hvv]
    calc Real.sqrt ((5 / 2 : ℚ) : ℝ) ≤ Real.sqrt 4 := by
          apply Real.sqrt_le_sqrt
          push_cast
          norm_num
      _ = 2 := by
          rw [show (4 : ℝ) = 2 ^ 2 by norm_num, Real.sqrt_sq (by norm_num)]
  rw [habs, lt_div_iff₀ hstdpos]
  have hθ : (cfgEx.sigma_threshold : ℝ) = 2 := by
    norm_num [cfgEx]
  rw [hθ]
  nlinarith [hstdpos, hstdle]

/-- Witness for the insufficient-history theorem: the very first reading
for a fresh device is recorded and judged non-anomalous with score 0. -/
theorem evaluate_insufficient_history_witness :
    ∃ v st', evaluate cfgEx initState (mkReading "m1" 100) = (.ok v, st') ∧
      v.is_anomaly = false ∧ v.score_sq = 0 ∧ v.score = 0 ∧
      st' (mkReading "m1" 100).device_id
        = pushWindow cfgEx.window_capacity
            (initState (mkReading "m1" 100).device_id)
            (mkReading "m1" 100).power.val ∧
      (cfgEx.min_samples ≤ cfgEx.window_capacity →
        st' (mkReading "m1" 100).device_id
          = initState (mkReading "m1" 100).device_id
            ++ [(mkReading "m1" 100).power.val]) :=
  evaluate_insufficient_history cfgEx initState (mkReading "m1" 100)
    (by decide) (by decide)

/-- Witness for the zero-variance theorem at the spec's degenerate
example: after `[10,10,10]` with `min_samples = 3`, the outlier 50 is
still not flagged. -/
theorem evaluate_zero_variance_witness :
    ∃ v st', evaluate cfgZv stZv (mkReading "dev" 50) = (.ok v, st') ∧
      v.is_anomaly = false ∧ v.score_sq = 0 ∧ v.score = 0 := by
  have hwin : stZv (mkReading "dev" 50).device_id = [10, 10, 10] := rfl
  have hvar : windowVariance (stZv (mkReading "dev" 50).device_id) = 0 := by
    rw [hwin]
    norm_num [windowVariance, windowMean]
  exact evaluate_zero_variance cfgZv stZv (mkReading "dev" 50)
    (by decide) (by decide) hvar (by decide)

/-- Witness for the window-bound theorem: with capacity 3, after the five
readings `[1,2,3,4,5]` the window holds exactly `[3,4,5]`. -/
theorem window_bound_witness :
    (runReadings cfgCap3 initState
        (([1, 2, 3, 4, 5] : List ℚ).map (mkReading "dev"))).2 "dev"
      = [3, 4, 5] :=
  ((window_bound cfgCap3 "dev" (by decide) [1, 2, 3, 4, 5]).2.2 2
    (by decide)).trans (by decide)

/-- Witness for the invalid-input theorem: a NaN-power reading is
rejected and leaves the registry untouched, while a plain valid reading
is accepted. -/
theorem evaluate_invalid_input_witness :
    (∃ e, (evaluate cfgEx initState rNan).1 = .error e) ∧
    (evaluate cfgEx initState rNan).2 = initState ∧
    (∃ v, (evaluate cfgEx initState (mkReading "dev" 1)).1 = .ok v) := by
  have h := evaluate_invalid_input cfgEx initState rNan
  have h2 := evaluate_invalid_input cfgEx initState (mkReading "dev" 1)
  have herr : ∃ e, (evaluate cfgEx initState rNan).1 = .error e :=
    h.1.mpr (Or.inl rfl)
  exact ⟨herr, h.2.1 herr, h2.2.2 (by decide)⟩

/-- Witness for the mock-chart threshold theorem, matching the
component's hard-coded sample rows: a 923 W point is marked with
`anomaly = 923` and an 832 W point with `anomaly = null`. -/
theorem mock_chart_anomaly_threshold_witness :
    (mkDataPoint "10:20" 923).anomaly = some 923 ∧
    (mkDataPoint "10:05" 832).anomaly = none := by
  have h1 := mock_chart_anomaly_threshold "10:20" (923 : ℚ)
  have h2 := mock_chart_anomaly_threshold "10:05" (832 : ℚ)
  constructor
  · rw [h1.1.mpr (by norm_num), h1.2.2,
      show (923 : ℚ) = ((923 : ℤ) : ℚ) by norm_num, round_intCast]
  · exact h2.2.1.mpr (by norm_num)

/-- Witness for the `apiFetch` theorem: a 404 response produces an error
and an ok response returns its JSON body. -/
theorem apiFetch_error_exactly_on_not_ok_witness :
    (∃ msg, apiFetch "/alerts" resp404 = .error msg) ∧
    apiFetch "/alerts" respOk = .ok respOk.jsonBody := by
  have h1 := apiFetch_error_exactly_on_not_ok "/alerts" resp404
  have h2 := apiFetch_error_exactly_on_not_ok "/alerts" respOk
  exact ⟨h1.1.mpr rfl, h2.2.2.1 rfl⟩

/-- Witness for the dismissal theorem: dismissing id 1 keeps the alert
with id 2. -/
theorem dismissAlert_removes_exactly_witness :
    alertB ∈ dismissAlert 1 [alertA, alertB] := by
  have h := dismissAlert_removes_exactly 1 [alertA, alertB]
  exact h.2.2.1 alertB (by decide) (by decide)

end HackSky
